import Mathlib

/-!
Shallow embedding of the content resolution engine of `ella/core/views.py`:
template selection (`get_templates`), the content-type slug cache
(`get_content_type`), object-detail resolution (`ObjectDetail.get_context` /
`ObjectDetail.__call__`) and listing construction with pagination
(`ListContentType.get_context`).  Django collaborators (the ORM, the
get-or-404 cache helper, `Placement.is_active`, the custom-view dispatcher,
`Paginator`) are modelled at their interfaces; repository code that is not
part of the translated sources is modelled from the specification and marked
as such in its doc comment.
-/

namespace Ella

/-- Errors surfaced by the views: `Http404` (NotFound) or an uncaught Python
`TypeError` (which would surface as a server error, not a 404). -/
inductive PyErr where
  | http404
  | typeError
deriving DecidableEq, Repr

instance instDecEqExcept {ε α : Type} [DecidableEq ε] [DecidableEq α] :
    DecidableEq (Except ε α) := fun a b =>
  match a, b with
  | .error e1, .error e2 =>
    if h : e1 = e2 then isTrue (by subst h; rfl)
    else isFalse (fun hc => h (Except.error.inj hc))
  | .error _, .ok _ => isFalse (fun hc => Except.noConfusion hc)
  | .ok _, .error _ => isFalse (fun hc => Except.noConfusion hc)
  | .ok a1, .ok a2 =>
    if h : a1 = a2 then isTrue (by subst h; rfl)
    else isFalse (fun hc => h (Except.ok.inj hc))

/-- A Django `ContentType`: primary key plus the `app_label` / `model` labels
used to build template names. -/
structure ContentType where
  id : Nat
  app_label : String
  model : String
deriving DecidableEq, Repr

/-- A registered Django model: its `verbose_name_plural` (whose slugified form
is matched by `get_content_type`) and the `ContentType` that
`ContentType.objects.get_for_model` would return for it. -/
structure Model where
  verbose_name_plural : String
  contentType : ContentType
deriving DecidableEq, Repr

/-- A `Category`: a node of a site's tree, identified by primary key, with the
site id, the unique `tree_path` and the display `path` used in template
names. -/
structure Category where
  id : Nat
  site_id : Nat
  tree_path : String
  path : String
deriving DecidableEq, Repr

/-- The publishable target object bound to a placement; opaque to the core
beyond the `slug` field read during template selection. -/
structure Target where
  slug : String
deriving DecidableEq, Repr

/-- A `Publishable`: carries its `ContentType` and the concrete target. -/
structure Publishable where
  content_type : ContentType
  target : Target
deriving DecidableEq, Repr

/-- A publish timestamp: an abstract instant (for the active-window
comparison) together with its calendar components (for the
`publish_from__year/month/day` filters). -/
structure PubDate where
  instant : Nat
  year : Nat
  month : Nat
  day : Nat
deriving DecidableEq, Repr

/-- A `Placement`: the binding of a publishable into a category with a slug,
a publish window and the `static` flag. -/
structure Placement where
  category : Category
  publishable : Publishable
  slug : String
  publish_from : PubDate
  publish_to : Option Nat
  static : Bool
deriving DecidableEq, Repr

/-- An element of a listing query result; opaque payload. -/
structure Listing where
  id : Nat
deriving DecidableEq, Repr

/-- The filter keyword arguments (`kwa`) assembled by
`ListContentType.get_context` and handed to
`Listing.objects.get_queryset_wrapper`. -/
structure ListingFilter where
  publish_from_year : Option Nat
  publish_from_month : Option Nat
  publish_from_day : Option Nat
  category : Option Category
  children : Bool
  content_types : Option (List ContentType)
deriving DecidableEq, Repr

/-- Python truthiness of an optional string: `None` and the empty string are
falsy, any other string is truthy. -/
def pyTruthyStr : Option String → Bool
  | none => false
  | some s => !(s = "")

/-- Python `str.isdigit`: non-empty and all decimal digits (computed over the
character list). -/
def pyIsDigit (s : String) : Bool :=
  !s.data.isEmpty && s.data.all Char.isDigit

/-- Helper for `pySplitSlash`: accumulate the current segment. -/
def pySplitSlashAux : List Char → List Char → List String
  | [], acc => [String.mk acc.reverse]
  | c :: rest, acc =>
    if c = '/' then String.mk acc.reverse :: pySplitSlashAux rest []
    else pySplitSlashAux rest (c :: acc)

/-- Python `s.split('/')`: splits on every slash, keeping empty segments. -/
def pySplitSlash (s : String) : List String :=
  pySplitSlashAux s.data []

/-- Python `int()` applied to a digit string (computed over the character
list). -/
def pyStrToNat (s : String) : Nat :=
  s.data.foldl (fun a c => a * 10 + (c.toNat - 48)) 0

/-- `ella.core.views.get_templates`: the template fallback chain.  Mirrors the
source exactly: a list is grown by appends guarded by the truthiness of
`category` (an object: truthy iff present), `app_label`/`model_label` and
`slug` (strings: truthy iff present and non-empty). -/
def get_templates (name : String) (slug : Option String)
    (category : Option Category) (app_label model_label : Option String) :
    List String :=
  let templates : List String := []
  let templates :=
    match category with
    | some cat =>
      let templates :=
        if pyTruthyStr app_label && pyTruthyStr model_label then
          let templates :=
            if pyTruthyStr slug then
              templates ++ ["page/category/" ++ cat.path ++ "/content_type/" ++
                app_label.getD "" ++ "." ++ model_label.getD "" ++ "/" ++
                slug.getD "" ++ "/" ++ name]
            else templates
          templates ++ ["page/category/" ++ cat.path ++ "/content_type/" ++
            app_label.getD "" ++ "." ++ model_label.getD "" ++ "/" ++ name]
        else templates
      templates ++ ["page/category/" ++ cat.path ++ "/" ++ name]
    | none => templates
  let templates :=
    if pyTruthyStr app_label && pyTruthyStr model_label then
      templates ++ ["page/content_type/" ++ app_label.getD "" ++ "." ++
        model_label.getD "" ++ "/" ++ name]
    else templates
  templates ++ ["page/" ++ name]

/-- The process-wide `CONTENT_TYPE_MAPPING` dictionary, threaded explicitly as
an association list (keys are never inserted twice, so first-match lookup is
dictionary lookup). -/
abbrev CTCache : Type := List (String × ContentType)

/-- Dictionary lookup in `CONTENT_TYPE_MAPPING`. -/
def ctLookup : CTCache → String → Option ContentType
  | [], _ => none
  | (k, ct) :: rest, name => if k = name then some ct else ctLookup rest name

/-- `ella.core.views.get_content_type`: look the slug up in the cache; on a
miss scan the registered models for the first one whose slugified
`verbose_name_plural` equals the slug, cache and return its `ContentType`;
raise `Http404` when no model matches.  `slugify` (Django) is an external
collaborator passed as a function.  Returns the result together with the
updated cache. -/
def get_content_type (slugify : String → String)
    (registeredModels : List Model) (mapping : CTCache) (ct_name : String) :
    Except PyErr ContentType × CTCache :=
  match ctLookup mapping ct_name with
  | some ct => (.ok ct, mapping)
  | none =>
    match registeredModels.find?
        (fun m => ct_name = slugify m.verbose_name_plural) with
    | some m => (.ok m.contentType, mapping ++ [(ct_name, m.contentType)])
    | none => (.error .http404, mapping)

/-- Modelled from the spec: `get_cached_object_or_404` (ella.core.cache, not
under src) specialised to `Category` — the CacheOrFail collaborator returns
the unique `Category` with the given `tree_path` and site id, or NotFound. -/
def findCategory (categories : List Category) (tree_path : String)
    (siteId : Nat) : Except PyErr Category :=
  match categories.find?
      (fun c => c.tree_path = tree_path && c.site_id = siteId) with
  | some c => .ok c
  | none => .error .http404

/-- Modelled from the spec: `get_cached_object_or_404` specialised to
`Placement` — returns the unique `Placement` satisfying the filter, or
NotFound (uniqueness is an upstream invariant, not re-verified). -/
def findPlacement (placements : List Placement) (pred : Placement → Bool) :
    Except PyErr Placement :=
  match placements.find? pred with
  | some p => .ok p
  | none => .error .http404

/-- Modelled from the spec: `Placement.is_active` (ella.core.models, not under
src) — a placement is active iff the current instant lies in
`[publish_from, publish_to)`, an absent `publish_to` meaning active forever
once published. -/
def Placement.is_active (now : Nat) (p : Placement) : Bool :=
  decide (p.publish_from.instant ≤ now) &&
    (match p.publish_to with
     | none => true
     | some t => decide (now < t))

/-- The inbound request, reduced to the fields the views read: the staff flag
and the `p` query parameter. -/
structure Request where
  is_staff : Bool
  getP : Option String

/-- The external world the views run against: the site, the current instant,
the stored categories and placements, the model registry and content-type
cache, and the external collaborators (`slugify`, the custom-detail registry
query, and listing query execution). -/
structure Env where
  site_id : Nat
  now : Nat
  categories : List Category
  placements : List Placement
  registeredModels : List Model
  ctCache : CTCache
  slugify : String → String
  hasCustomDetail : Target → Bool
  runQuery : ListingFilter → List Listing

/-- The filter used for the dated placement lookup in
`ObjectDetail.get_context` (`publish_from__year/month/day`, content type,
category, slug, `static=False`).  Django field lookups compare primary keys,
and a `None` date component matches nothing. -/
def datedPlacementPred (cat : Category) (ct : ContentType) (slug : String)
    (year month day : Option Nat) (p : Placement) : Bool :=
  (some p.publish_from.year == year) &&
  (some p.publish_from.month == month) &&
  (some p.publish_from.day == day) &&
  (p.publishable.content_type.id == ct.id) &&
  (p.category.id == cat.id) &&
  (p.slug == slug) &&
  (p.static == false)

/-- The filter used for the static placement lookup in
`ObjectDetail.get_context` (category, content type, slug, `static=True`). -/
def staticPlacementPred (cat : Category) (ct : ContentType) (slug : String)
    (p : Placement) : Bool :=
  (p.category.id == cat.id) &&
  (p.publishable.content_type.id == ct.id) &&
  (p.slug == slug) &&
  (p.static == true)

/-- Lines 160–162 of `ObjectDetail.get_context`: overwrite the placement's
category and its publishable's content type with the already-resolved
instances ("save existing object to preserve memory and SQL"). -/
def substitutePlacement (cat : Category) (ct : ContentType) (p : Placement) :
    Placement :=
  { p with category := cat,
           publishable := { p.publishable with content_type := ct } }

/-- Lines 142–162 of `ObjectDetail.get_context`: resolve the content type and
category, look up the placement (dated branch when `year` is truthy, static
branch otherwise), then overwrite the placement's category and its
publishable's content type with the already-resolved instances. -/
def ObjectDetail.lookupPlacement (env : Env)
    (category content_type slug : String) (year month day : Option Nat) :
    Except PyErr (Placement × Category × ContentType) :=
  match (get_content_type env.slugify env.registeredModels env.ctCache
      content_type).1 with
  | .error e => .error e
  | .ok ct =>
    match findCategory env.categories category env.site_id with
    | .error e => .error e
    | .ok cat =>
      match (if year.isSome then
               findPlacement env.placements
                 (datedPlacementPred cat ct slug year month day)
             else
               findPlacement env.placements (staticPlacementPred cat ct slug)) with
      | .error e => .error e
      | .ok placement => .ok (substitutePlacement cat ct placement, cat, ct)

/-- The context dictionary built by `ObjectDetail.get_context`. -/
structure DetailContext where
  placement : Placement
  object : Target
  category : Category
  content_type_name : String
  content_type : ContentType
deriving DecidableEq, Repr

/-- `ObjectDetail.get_context`: placement lookup followed by the active-window
gate (`Http404` unless the placement is active or the requesting user is
staff), then the context dictionary. -/
def ObjectDetail.get_context (env : Env) (request : Request)
    (category content_type slug : String) (year month day : Option Nat) :
    Except PyErr DetailContext :=
  match ObjectDetail.lookupPlacement env category content_type slug
      year month day with
  | .error e => .error e
  | .ok (placement, cat, ct) =>
    if !(Placement.is_active env.now placement || request.is_staff) then
      .error .http404
    else
      .ok { placement := placement,
            object := placement.publishable.target,
            category := cat,
            content_type_name := content_type,
            content_type := ct }

/-- `EllaCoreView.get_templates` specialised to the object-detail context,
where the context always carries `object` and a truthy `content_type`:
template name `object.html`, slug from the object, labels from the content
type. -/
def ObjectDetail.view_templates (ctx : DetailContext) : List String :=
  get_templates "object.html" (some ctx.object.slug) (some ctx.category)
    (some ctx.content_type.app_label) (some ctx.content_type.model)

/-- The outcome of `ObjectDetail.__call__`: delegation to a custom sub-path
view, delegation to a registered custom-detail override, the standard render
with its template candidates, or a failure. -/
inductive DetailResponse where
  | customView (bits : List String) (ctx : DetailContext)
  | customDetail (ctx : DetailContext)
  | rendered (ctx : DetailContext) (templates : List String)
  | failed (e : PyErr)
deriving DecidableEq, Repr

/-- `ObjectDetail.__call__`: build the context, then dispatch — a truthy
`url_remainder` is split on `/` and delegated to the sub-path dispatcher;
otherwise a registered custom detail wins; otherwise the standard
template-selection-and-render path.  The dispatcher itself
(`ella.core.custom_urls`, not under src) is modelled from the spec as the
capability query `env.hasCustomDetail`. -/
def ObjectDetail.call (env : Env) (request : Request)
    (category content_type slug : String) (year month day : Option Nat)
    (url_remainder : Option String) : DetailResponse :=
  match ObjectDetail.get_context env request category content_type slug
      year month day with
  | .error e => .failed e
  | .ok ctx =>
    if pyTruthyStr url_remainder then
      .customView (pySplitSlash (url_remainder.getD "")) ctx
    else if env.hasCustomDetail ctx.object then
      .customDetail ctx
    else
      .rendered ctx (ObjectDetail.view_templates ctx)

/-- Gregorian leap year, as `datetime.date` uses it. -/
def isLeapYear (y : Nat) : Bool :=
  (y % 4 == 0 && y % 100 != 0) || (y % 400 == 0)

/-- Days in a month of a year, as `datetime.date` uses it. -/
def daysInMonth (y m : Nat) : Nat :=
  if m == 2 then (if isLeapYear y then 29 else 28)
  else if m == 4 || m == 6 || m == 9 || m == 11 then 30
  else 31

/-- Whether `datetime.date(y, m, d)` succeeds (`MINYEAR = 1`,
`MAXYEAR = 9999`); otherwise it raises `ValueError`. -/
def validDate (y m d : Nat) : Bool :=
  decide (1 ≤ y) && decide (y ≤ 9999) && decide (1 ≤ m) && decide (m ≤ 12) &&
    decide (1 ≤ d) && decide (d ≤ daysInMonth y m)

/-- Lines 198–202 of `ListContentType.get_context`: the page number is the
integer value of the `p` query parameter when it is a digit string, else 1. -/
def parsePageNo (getP : Option String) : Nat :=
  match getP with
  | some s => if pyIsDigit s then pyStrToNat s else 1
  | none => 1

/-- Lines 204–222 of `ListContentType.get_context`: the date part of the
filter.  `int(year)` on a missing year raises an uncaught `TypeError`; an
invalid month or day raises `ValueError` inside `datetime.date`, caught and
re-raised as `Http404`; `datetime.date(year, None, day)` (day supplied
without month) raises an uncaught `TypeError`. -/
def ListContentType.buildDateKwa (year month day : Option Nat) :
    Except PyErr ListingFilter :=
  match year with
  | none => .error .typeError
  | some yr =>
    let step1 : Except PyErr ListingFilter :=
      match month with
      | some m =>
        if validDate yr m 1 then
          .ok { publish_from_year := some yr, publish_from_month := some m,
                publish_from_day := none, category := none, children := false,
                content_types := none }
        else .error .http404
      | none =>
        .ok { publish_from_year := some yr, publish_from_month := none,
              publish_from_day := none, category := none, children := false,
              content_types := none }
    match step1 with
    | .error e => .error e
    | .ok kwa1 =>
      match day with
      | some d =>
        match month with
        | some m =>
          if validDate yr m d then .ok { kwa1 with publish_from_day := some d }
          else .error .http404
        | none => .error .typeError
      | none => .ok kwa1

/-- Lines 224–233 of `ListContentType.get_context`: resolve the category and
add the exact-category filter; additionally add the `children` subtree filter
exactly when the category path is non-empty; resolve and add a requested
content type as a one-element list. -/
def ListContentType.applyCategoryAndType (env : Env) (category : String)
    (content_type : Option String) (kwa2 : ListingFilter) :
    Except PyErr (ListingFilter × Category × Option ContentType) :=
  match findCategory env.categories category env.site_id with
  | .error e => .error e
  | .ok cat =>
    let kwa3 := { kwa2 with category := some cat }
    let kwa4 :=
      if category = "" then kwa3 else { kwa3 with children := true }
    match content_type with
    | some ctName =>
      match (get_content_type env.slugify env.registeredModels
          env.ctCache ctName).1 with
      | .error e => .error e
      | .ok ct => .ok ({ kwa4 with content_types := some [ct] }, cat, some ct)
    | none => .ok (kwa4, cat, none)

/-- Lines 204–233 of `ListContentType.get_context`: assemble the full filter
keyword arguments — the date filter followed by the category and
content-type filters. -/
def ListContentType.buildKwa (env : Env) (category : String)
    (year month day : Option Nat) (content_type : Option String) :
    Except PyErr (ListingFilter × Category × Option ContentType) :=
  match ListContentType.buildDateKwa year month day with
  | .error e => .error e
  | .ok kwa2 => ListContentType.applyCategoryAndType env category content_type kwa2

/-- `django.core.paginator.Paginator.num_pages` with the default
`orphans=0, allow_empty_first_page=True`: `ceil(max(1, count) / per_page)`. -/
def Paginator.num_pages (count per : Nat) : Nat :=
  if count == 0 then 1 else (count + per - 1) / per

/-- The object list of page `page_no` (1-indexed) of a Django `Paginator`. -/
def Paginator.page_items (items : List Listing) (per page_no : Nat) :
    List Listing :=
  (items.drop ((page_no - 1) * per)).take per

/-- The context dictionary built by `ListContentType.get_context` (the page
object is represented by its object list and number). -/
structure ListingContext where
  listings : List Listing
  category : Category
  content_type : Option ContentType
  content_type_name : Option String
  is_paginated : Bool
  results_per_page : Nat
  page_number : Nat
deriving DecidableEq, Repr

/-- The default of the `paginate_by` parameter in the signature of
`ListContentType.get_context`. -/
def ListContentType.paginate_by_default : Nat := 20

/-- `ListContentType.get_context`: parse the page number, build the filter,
run the query (`Listing.objects.get_queryset_wrapper`, modelled from the spec
as the external `env.runQuery` since query execution is not under src),
reject a page number outside `[1, num_pages]` with `Http404`, and return the
page's context. -/
def ListContentType.get_context (env : Env) (request : Request)
    (category : String) (year month day : Option Nat)
    (content_type : Option String) (paginate_by : Nat) :
    Except PyErr ListingContext :=
  let page_no := parsePageNo request.getP
  match ListContentType.buildKwa env category year month day content_type with
  | .error e => .error e
  | .ok (kwa, cat, ct) =>
    let qset := env.runQuery kwa
    if page_no > Paginator.num_pages qset.length paginate_by ∨ page_no < 1 then
      .error .http404
    else
      .ok { listings := Paginator.page_items qset paginate_by page_no,
            category := cat,
            content_type := ct,
            content_type_name := content_type,
            is_paginated := decide (1 < Paginator.num_pages qset.length paginate_by),
            results_per_page := paginate_by,
            page_number := page_no }

/-- Concrete content type used by the witnesses. -/
def exCT : ContentType := { id := 1, app_label := "articles", model := "article" }

/-- Concrete registered model used by the witnesses. -/
def exModel : Model := { verbose_name_plural := "articles", contentType := exCT }

/-- Concrete non-root category used by the witnesses. -/
def exCat : Category := { id := 10, site_id := 1, tree_path := "news", path := "news" }

/-- Concrete root category used by the witnesses. -/
def exRootCat : Category := { id := 11, site_id := 1, tree_path := "", path := "" }

/-- A stale copy of `exCat` (same primary key, different display path) stored
on a placement, to exercise the field-substitution step. -/
def exCatStale : Category :=
  { id := 10, site_id := 1, tree_path := "news", path := "old-news" }

/-- Concrete publishable target used by the witnesses. -/
def exTarget : Target := { slug := "my-story" }

/-- Concrete publishable used by the witnesses. -/
def exPub : Publishable := { content_type := exCT, target := exTarget }

/-- A dated (non-static), currently active placement. -/
def exDatedPlacement : Placement :=
  { category := exCatStale, publishable := exPub, slug := "my-story",
    publish_from := { instant := 50, year := 2024, month := 2, day := 14 },
    publish_to := none, static := false }

/-- A static, currently active placement. -/
def exStaticPlacement : Placement :=
  { category := exCat,
    publishable := { content_type := exCT, target := { slug := "about" } },
    slug := "about",
    publish_from := { instant := 40, year := 2023, month := 1, day := 1 },
    publish_to := none, static := true }

/-- A dated placement whose publish-from instant is in the future (inactive at
`now = 100`). -/
def exFuturePlacement : Placement :=
  { category := exCat,
    publishable := { content_type := exCT, target := { slug := "soon" } },
    slug := "soon",
    publish_from := { instant := 150, year := 2025, month := 3, day := 1 },
    publish_to := none, static := false }

/-- Forty-five listing rows for the pagination witnesses. -/
def exListings : List Listing := (List.range 45).map (fun i => { id := i })

/-- The concrete environment used by the witnesses. -/
def exEnv : Env :=
  { site_id := 1, now := 100,
    categories := [exCat, exRootCat],
    placements := [exDatedPlacement, exStaticPlacement, exFuturePlacement],
    registeredModels := [exModel],
    ctCache := [],
    slugify := fun s => s,
    hasCustomDetail := fun _ => false,
    runQuery := fun _ => exListings }

/-- The context produced by the successful dated object-detail witness. -/
def exDatedCtx : DetailContext :=
  { placement := { exDatedPlacement with category := exCat },
    object := exTarget,
    category := exCat,
    content_type_name := "articles",
    content_type := exCT }

/-- The context produced by the successful static object-detail witness. -/
def exStaticCtx : DetailContext :=
  { placement := exStaticPlacement,
    object := { slug := "about" },
    category := exCat,
    content_type_name := "articles",
    content_type := exCT }

/-- The filter built by the listing witnesses for the root category and year
2024 with no month, day or content type. -/
def exKwa : ListingFilter :=
  { publish_from_year := some 2024, publish_from_month := none,
    publish_from_day := none, category := some exRootCat, children := false,
    content_types := none }

/-- The filter built by the listing witness for a valid full date. -/
def exKwaFeb : ListingFilter :=
  { publish_from_year := some 2024, publish_from_month := some 2,
    publish_from_day := some 29, category := some exRootCat, children := false,
    content_types := none }

/-- The filter built by the listing witness for the non-root category. -/
def exKwaNews : ListingFilter :=
  { publish_from_year := some 2024, publish_from_month := none,
    publish_from_day := none, category := some exCat, children := true,
    content_types := none }

/-- Claim C1: `get_templates` returns exactly the applicable candidates, most
specific first, in the fixed order (category+labels+slug, category+labels,
category, labels, always the bare name), duplicates not removed; with only the
base name `category.html` the result is exactly `[page/category.html]`, and on
the spec's `object.html`/news/articles.article/my-story input it is exactly
the five-element list from the spec. -/
theorem get_templates_fallback_chain :
    (∀ (name : String) (slug : Option String) (category : Option Category)
        (app_label model_label : Option String),
      get_templates name slug category app_label model_label =
        (match category with
         | some cat =>
           (if pyTruthyStr app_label && pyTruthyStr model_label then
              (if pyTruthyStr slug then
                 ["page/category/" ++ cat.path ++ "/content_type/" ++
                   app_label.getD "" ++ "." ++ model_label.getD "" ++ "/" ++
                   slug.getD "" ++ "/" ++ name]
               else []) ++
              ["page/category/" ++ cat.path ++ "/content_type/" ++
                app_label.getD "" ++ "." ++ model_label.getD "" ++ "/" ++ name]
            else []) ++
           ["page/category/" ++ cat.path ++ "/" ++ name]
         | none => []) ++
        (if pyTruthyStr app_label && pyTruthyStr model_label then
           ["page/content_type/" ++ app_label.getD "" ++ "." ++
             model_label.getD "" ++ "/" ++ name]
         else []) ++
        ["page/" ++ name]) ∧
    get_templates "category.html" none none none none =
      ["page/category.html"] ∧
    get_templates "object.html" (some "my-story")
        (some { id := 10, site_id := 1, tree_path := "news", path := "news" })
        (some "articles") (some "article") =
      ["page/category/news/content_type/articles.article/my-story/object.html",
       "page/category/news/content_type/articles.article/object.html",
       "page/category/news/object.html",
       "page/content_type/articles.article/object.html",
       "page/object.html"] := by
  refine ⟨?_, by decide, by decide⟩
  intro name slug category app_label model_label
  cases category with
  | none =>
    cases hb : (pyTruthyStr app_label && pyTruthyStr model_label) <;>
      simp [get_templates, hb]
  | some cat =>
    cases hb : (pyTruthyStr app_label && pyTruthyStr model_label) <;>
      cases hs : pyTruthyStr slug <;>
        simp [get_templates, hb, hs]

/-- Appending a fresh key to the cache makes it findable. -/
theorem ctLookup_append_of_none (m : CTCache) (k : String) (ct : ContentType)
    (h : ctLookup m k = none) : ctLookup (m ++ [(k, ct)]) k = some ct := by
  induction m with
  | nil => simp [ctLookup]
  | cons head tail ih =>
    obtain ⟨hk, hct⟩ := head
    by_cases hkk : hk = k
    · simp [ctLookup, hkk] at h
    · simp only [ctLookup, List.cons_append, if_neg hkk] at h ⊢
      exact ih h

/-- Appending entries to the cache preserves existing lookups. -/
theorem ctLookup_append_of_some (m l : CTCache) (k : String) (ct : ContentType)
    (h : ctLookup m k = some ct) : ctLookup (m ++ l) k = some ct := by
  induction m with
  | nil => simp [ctLookup] at h
  | cons head tail ih =>
    obtain ⟨hk, hct⟩ := head
    by_cases hkk : hk = k
    · simp only [ctLookup, List.cons_append, if_pos hkk] at h ⊢
      exact h
    · simp only [ctLookup, List.cons_append, if_neg hkk] at h ⊢
      exact ih h

/-- Claim C5: the content-type registry lookup is idempotent — a second call
with the same slug returns the same result and leaves the cache unchanged; a
successful call leaves the slug cached; a cached slug is answered from the
cache alone, independently of the registered models and the slugifier (no
scan); a cached slug stays mapped across any later call; and a slug matched
by no registered model's slugified plural name fails with NotFound. -/
theorem get_content_type_idempotent_cache :
    (∀ (slugify : String → String) (models : List Model) (mapping : CTCache)
        (s : String),
      get_content_type slugify models
          (get_content_type slugify models mapping s).2 s =
        get_content_type slugify models mapping s) ∧
    (∀ (slugify : String → String) (models : List Model) (mapping : CTCache)
        (s : String) (ct : ContentType),
      (get_content_type slugify models mapping s).1 = .ok ct →
      ctLookup (get_content_type slugify models mapping s).2 s = some ct) ∧
    (∀ (slugify2 : String → String) (models2 : List Model) (mapping : CTCache)
        (s : String) (ct : ContentType),
      ctLookup mapping s = some ct →
      get_content_type slugify2 models2 mapping s = (.ok ct, mapping)) ∧
    (∀ (slugify : String → String) (models : List Model) (mapping : CTCache)
        (s : String) (ct : ContentType) (s2 : String),
      ctLookup mapping s = some ct →
      ctLookup (get_content_type slugify models mapping s2).2 s = some ct) ∧
    (∀ (slugify : String → String) (models : List Model) (mapping : CTCache)
        (s : String),
      ctLookup mapping s = none →
      (∀ mo ∈ models, ¬ s = slugify mo.verbose_name_plural) →
      get_content_type slugify models mapping s = (.error .http404, mapping)) := by
  refine ⟨?_, ?_, ?_, ?_, ?_⟩
  · intro sl models mapping s
    cases hl : ctLookup mapping s with
    | some ct => simp [get_content_type, hl]
    | none =>
      cases hf : models.find? (fun m => s = sl m.verbose_name_plural) with
      | none => simp [get_content_type, hl, hf]
      | some mo =>
        have h2 := ctLookup_append_of_none mapping s mo.contentType hl
        simp [get_content_type, hl, hf, h2]
  · intro sl models mapping s ct h
    cases hl : ctLookup mapping s with
    | some ct0 =>
      have h2 : ct0 = ct := by simpa [get_content_type, hl] using h
      simp [get_content_type, hl, h2]
    | none =>
      cases hf : models.find? (fun m => s = sl m.verbose_name_plural) with
      | none => simp [get_content_type, hl, hf] at h
      | some mo =>
        have h2 : mo.contentType = ct := by
          simpa [get_content_type, hl, hf] using h
        simp only [get_content_type, hl, hf]
        rw [← h2]
        exact ctLookup_append_of_none mapping s mo.contentType hl
  · intro sl2 models2 mapping s ct h
    simp [get_content_type, h]
  · intro sl models mapping s ct s2 h
    cases hl2 : ctLookup mapping s2 with
    | some ct2 => simpa [get_content_type, hl2] using h
    | none =>
      cases hf : models.find? (fun m => s2 = sl m.verbose_name_plural) with
      | none => simpa [get_content_type, hl2, hf] using h
      | some mo =>
        simp only [get_content_type, hl2, hf]
        exact ctLookup_append_of_some mapping [(s2, mo.contentType)] s ct h
  · intro sl models mapping s hl hnone
    cases hf : models.find? (fun m => s = sl m.verbose_name_plural) with
    | none => simp [get_content_type, hl, hf]
    | some mo =>
      have hmem := List.mem_of_find?_eq_some hf
      have hpred := List.find?_some hf
      simp only [decide_eq_true_eq] at hpred
      exact absurd hpred (hnone mo hmem)

/-- Witness for claim C5 at a concrete registry, cache and slugs. -/
theorem get_content_type_idempotent_cache_witness :
    get_content_type (fun s => s) [exModel]
        (get_content_type (fun s => s) [exModel] [] "articles").2 "articles" =
      get_content_type (fun s => s) [exModel] [] "articles" ∧
    ctLookup (get_content_type (fun s => s) [exModel] [] "articles").2
        "articles" = some exCT ∧
    get_content_type (fun s => s) [] [("articles", exCT)] "articles" =
      (.ok exCT, [("articles", exCT)]) ∧
    ctLookup (get_content_type (fun s => s) [exModel]
        [("articles", exCT)] "other").2 "articles" = some exCT ∧
    get_content_type (fun s => s) [exModel] [] "nonexistent" =
      (.error .http404, []) :=
  ⟨get_content_type_idempotent_cache.1 (fun s => s) [exModel] [] "articles",
   get_content_type_idempotent_cache.2.1 (fun s => s) [exModel] [] "articles"
     exCT (by decide),
   get_content_type_idempotent_cache.2.2.1 (fun s => s) []
     [("articles", exCT)] "articles" exCT (by decide),
   get_content_type_idempotent_cache.2.2.2.1 (fun s => s) [exModel]
     [("articles", exCT)] "articles" exCT "other" (by decide),
   get_content_type_idempotent_cache.2.2.2.2 (fun s => s) [exModel] []
     "nonexistent" (by decide) (by decide)⟩

/-- Eliminator for a successful placement lookup: it factors into the
content-type resolution, the category resolution, the branch-selected
placement find and the field substitution. -/
theorem lookupPlacement_ok_elim (env : Env)
    (category content_type slug : String) (year month day : Option Nat)
    (trip : Placement × Category × ContentType)
    (h : ObjectDetail.lookupPlacement env category content_type slug
        year month day = .ok trip) :
    ∃ cat ct p,
      (get_content_type env.slugify env.registeredModels env.ctCache
          content_type).1 = .ok ct ∧
      findCategory env.categories category env.site_id = .ok cat ∧
      (if year.isSome then
         findPlacement env.placements
           (datedPlacementPred cat ct slug year month day)
       else
         findPlacement env.placements (staticPlacementPred cat ct slug)) =
        .ok p ∧
      trip = (substitutePlacement cat ct p, cat, ct) := by
  simp only [ObjectDetail.lookupPlacement] at h
  cases hct : (get_content_type env.slugify env.registeredModels env.ctCache
      content_type).1 with
  | error e => simp [hct] at h
  | ok ct =>
    simp only [hct] at h
    cases hcat : findCategory env.categories category env.site_id with
    | error e => simp [hcat] at h
    | ok cat =>
      simp only [hcat] at h
      cases hfp : (if year.isSome then
          findPlacement env.placements
            (datedPlacementPred cat ct slug year month day)
        else
          findPlacement env.placements (staticPlacementPred cat ct slug)) with
      | error e => simp [hfp] at h
      | ok p =>
        simp only [hfp, Except.ok.injEq] at h
        exact ⟨cat, ct, p, rfl, rfl, hfp, h.symm⟩

/-- Eliminator for a successful `ObjectDetail.get_context`: the lookup
succeeded, the active-or-staff gate passed, and the context is the standard
dictionary. -/
theorem get_context_ok_elim (env : Env) (request : Request)
    (category content_type slug : String) (year month day : Option Nat)
    (ctx : DetailContext)
    (h : ObjectDetail.get_context env request category content_type slug
        year month day = .ok ctx) :
    ∃ p cat ct,
      ObjectDetail.lookupPlacement env category content_type slug
          year month day = .ok (p, cat, ct) ∧
      (Placement.is_active env.now p || request.is_staff) = true ∧
      ctx = { placement := p, object := p.publishable.target, category := cat,
              content_type_name := content_type, content_type := ct } := by
  simp only [ObjectDetail.get_context] at h
  cases hlk : ObjectDetail.lookupPlacement env category content_type slug
      year month day with
  | error e => simp [hlk] at h
  | ok trip =>
    obtain ⟨p, cat, ct⟩ := trip
    simp only [hlk] at h
    split at h
    · exact Except.noConfusion h
    · rename_i hcond
      have ha : (Placement.is_active env.now p || request.is_staff) = true := by
        cases hA : Placement.is_active env.now p with
        | true => rfl
        | false =>
          cases hB : request.is_staff with
          | true => rfl
          | false =>
            exact absurd
              (show (!(Placement.is_active env.now p || request.is_staff)) =
                  true by rw [hA, hB]; rfl)
              hcond
      exact ⟨p, cat, ct, rfl, ha, (Except.ok.inj h).symm⟩

/-- The dated placement filter pins down the placement's static flag, slug and
publish-from calendar date. -/
theorem datedPred_fields (cat : Category) (ct : ContentType) (slug : String)
    (y m d : Nat) (p : Placement)
    (h : datedPlacementPred cat ct slug (some y) (some m) (some d) p = true) :
    p.static = false ∧ p.slug = slug ∧ p.publish_from.year = y ∧
      p.publish_from.month = m ∧ p.publish_from.day = d := by
  simp only [datedPlacementPred, Bool.and_eq_true, beq_iff_eq,
    Option.some.injEq, and_assoc] at h
  obtain ⟨h1, h2, h3, h4, h5, h6, h7⟩ := h
  exact ⟨h7, h6, h1, h2, h3⟩

/-- The static placement filter pins down the placement's static flag and
slug. -/
theorem staticPred_fields (cat : Category) (ct : ContentType) (slug : String)
    (p : Placement) (h : staticPlacementPred cat ct slug p = true) :
    p.static = true ∧ p.slug = slug := by
  simp only [staticPlacementPred, Bool.and_eq_true, beq_iff_eq, and_assoc] at h
  exact ⟨h.2.2.2, h.2.2.1⟩

/-- Claim C2: with year, month and day all supplied, the placement looked up
by `ObjectDetail.get_context` is a stored placement matching the dated filter
(`static = false`, resolved category, resolved content type, slug, and
publish-from calendar date equal to the supplied date); with no date it is
one matching the static filter (`static = true`, category, content type,
slug, no date constraint); and in either branch, when no stored placement
matches the filter the resolution fails with NotFound. -/
theorem object_detail_placement_resolution :
    (∀ (env : Env) (request : Request) (category content_type slug : String)
        (y m d : Nat) (ctx : DetailContext),
      ObjectDetail.get_context env request category content_type slug
          (some y) (some m) (some d) = .ok ctx →
      ∃ cat ct p,
        findCategory env.categories category env.site_id = .ok cat ∧
        (get_content_type env.slugify env.registeredModels env.ctCache
            content_type).1 = .ok ct ∧
        p ∈ env.placements ∧
        datedPlacementPred cat ct slug (some y) (some m) (some d) p = true ∧
        ctx.placement = substitutePlacement cat ct p ∧
        ctx.placement.static = false ∧
        ctx.placement.slug = slug ∧
        ctx.placement.publish_from.year = y ∧
        ctx.placement.publish_from.month = m ∧
        ctx.placement.publish_from.day = d) ∧
    (∀ (env : Env) (request : Request) (category content_type slug : String)
        (ctx : DetailContext),
      ObjectDetail.get_context env request category content_type slug
          none none none = .ok ctx →
      ∃ cat ct p,
        findCategory env.categories category env.site_id = .ok cat ∧
        (get_content_type env.slugify env.registeredModels env.ctCache
            content_type).1 = .ok ct ∧
        p ∈ env.placements ∧
        staticPlacementPred cat ct slug p = true ∧
        ctx.placement = substitutePlacement cat ct p ∧
        ctx.placement.static = true ∧
        ctx.placement.slug = slug) ∧
    (∀ (env : Env) (request : Request) (category content_type slug : String)
        (y m d : Nat) (cat : Category) (ct : ContentType),
      findCategory env.categories category env.site_id = .ok cat →
      (get_content_type env.slugify env.registeredModels env.ctCache
          content_type).1 = .ok ct →
      (∀ p ∈ env.placements,
        datedPlacementPred cat ct slug (some y) (some m) (some d) p = false) →
      ObjectDetail.get_context env request category content_type slug
          (some y) (some m) (some d) = .error .http404) ∧
    (∀ (env : Env) (request : Request) (category content_type slug : String)
        (cat : Category) (ct : ContentType),
      findCategory env.categories category env.site_id = .ok cat →
      (get_content_type env.slugify env.registeredModels env.ctCache
          content_type).1 = .ok ct →
      (∀ p ∈ env.placements, staticPlacementPred cat ct slug p = false) →
      ObjectDetail.get_context env request category content_type slug
          none none none = .error .http404) := by
  refine ⟨?_, ?_, ?_, ?_⟩
  · intro env request category content_type slug y m d ctx h
    obtain ⟨p, cat0, ct0, hlk, ha, hctx⟩ :=
      get_context_ok_elim env request category content_type slug
        (some y) (some m) (some d) ctx h
    obtain ⟨catR, ctR, pR, hctR, hcatR, hfp, htrip⟩ :=
      lookupPlacement_ok_elim env category content_type slug
        (some y) (some m) (some d) _ hlk
    obtain ⟨hp, hc0, hct0⟩ :
        p = substitutePlacement catR ctR pR ∧ cat0 = catR ∧ ct0 = ctR := by
      simpa [Prod.mk.injEq] using htrip
    subst hp hc0 hct0
    rw [if_pos (show ((some y : Option Nat).isSome = true) from rfl)] at hfp
    simp only [findPlacement] at hfp
    cases hff : env.placements.find?
        (datedPlacementPred cat0 ct0 slug (some y) (some m) (some d)) with
    | none => simp [hff] at hfp
    | some p2 =>
      simp only [hff, Except.ok.injEq] at hfp
      subst hfp
      have hmem := List.mem_of_find?_eq_some hff
      have hpred := List.find?_some hff
      obtain ⟨hst, hsl, hy, hm, hd⟩ :=
        datedPred_fields cat0 ct0 slug y m d p2 hpred
      refine ⟨cat0, ct0, p2, hcatR, hctR, hmem, hpred, ?_, ?_, ?_, ?_, ?_, ?_⟩
      · rw [hctx]
      · rw [hctx]; simpa [substitutePlacement] using hst
      · rw [hctx]; simpa [substitutePlacement] using hsl
      · rw [hctx]; simpa [substitutePlacement] using hy
      · rw [hctx]; simpa [substitutePlacement] using hm
      · rw [hctx]; simpa [substitutePlacement] using hd
  · intro env request category content_type slug ctx h
    obtain ⟨p, cat0, ct0, hlk, ha, hctx⟩ :=
      get_context_ok_elim env request category content_type slug
        none none none ctx h
    obtain ⟨catR, ctR, pR, hctR, hcatR, hfp, htrip⟩ :=
      lookupPlacement_ok_elim env category content_type slug
        none none none _ hlk
    obtain ⟨hp, hc0, hct0⟩ :
        p = substitutePlacement catR ctR pR ∧ cat0 = catR ∧ ct0 = ctR := by
      simpa [Prod.mk.injEq] using htrip
    subst hp hc0 hct0
    rw [if_neg (show ¬((none : Option Nat).isSome = true) from by simp)] at hfp
    simp only [findPlacement] at hfp
    cases hff : env.placements.find? (staticPlacementPred cat0 ct0 slug) with
    | none => simp [hff] at hfp
    | some p2 =>
      simp only [hff, Except.ok.injEq] at hfp
      subst hfp
      have hmem := List.mem_of_find?_eq_some hff
      have hpred := List.find?_some hff
      obtain ⟨hst, hsl⟩ := staticPred_fields cat0 ct0 slug p2 hpred
      refine ⟨cat0, ct0, p2, hcatR, hctR, hmem, hpred, ?_, ?_, ?_⟩
      · rw [hctx]
      · rw [hctx]; simpa [substitutePlacement] using hst
      · rw [hctx]; simpa [substitutePlacement] using hsl
  · intro env request category content_type slug y m d cat ct hcat hct hnone
    have hff : env.placements.find?
        (datedPlacementPred cat ct slug (some y) (some m) (some d)) = none :=
      List.find?_eq_none.mpr (fun p hp => by simp [hnone p hp])
    simp [ObjectDetail.get_context, ObjectDetail.lookupPlacement,
      findPlacement, hct, hcat, hff]
  · intro env request category content_type slug cat ct hcat hct hnone
    have hff : env.placements.find? (staticPlacementPred cat ct slug) = none :=
      List.find?_eq_none.mpr (fun p hp => by simp [hnone p hp])
    simp [ObjectDetail.get_context, ObjectDetail.lookupPlacement,
      findPlacement, hct, hcat, hff]

/-- Witness for claim C2: a successful dated and a successful static lookup,
and a NotFound in each branch for a slug matching no stored placement, in the
concrete environment. -/
theorem object_detail_placement_resolution_witness :
    (∃ cat ct p,
      findCategory exEnv.categories "news" exEnv.site_id = .ok cat ∧
      (get_content_type exEnv.slugify exEnv.registeredModels exEnv.ctCache
          "articles").1 = .ok ct ∧
      p ∈ exEnv.placements ∧
      datedPlacementPred cat ct "my-story" (some 2024) (some 2) (some 14) p =
        true ∧
      exDatedCtx.placement = substitutePlacement cat ct p ∧
      exDatedCtx.placement.static = false ∧
      exDatedCtx.placement.slug = "my-story" ∧
      exDatedCtx.placement.publish_from.year = 2024 ∧
      exDatedCtx.placement.publish_from.month = 2 ∧
      exDatedCtx.placement.publish_from.day = 14) ∧
    (∃ cat ct p,
      findCategory exEnv.categories "news" exEnv.site_id = .ok cat ∧
      (get_content_type exEnv.slugify exEnv.registeredModels exEnv.ctCache
          "articles").1 = .ok ct ∧
      p ∈ exEnv.placements ∧
      staticPlacementPred cat ct "about" p = true ∧
      exStaticCtx.placement = substitutePlacement cat ct p ∧
      exStaticCtx.placement.static = true ∧
      exStaticCtx.placement.slug = "about") ∧
    ObjectDetail.get_context exEnv { is_staff := false, getP := none }
        "news" "articles" "nope" (some 2024) (some 2) (some 14) =
      .error .http404 ∧
    ObjectDetail.get_context exEnv { is_staff := false, getP := none }
        "news" "articles" "nope" none none none = .error .http404 :=
  ⟨object_detail_placement_resolution.1 exEnv
     { is_staff := false, getP := none } "news" "articles" "my-story"
     2024 2 14 exDatedCtx (by decide),
   object_detail_placement_resolution.2.1 exEnv
     { is_staff := false, getP := none } "news" "articles" "about"
     exStaticCtx (by decide),
   object_detail_placement_resolution.2.2.1 exEnv
     { is_staff := false, getP := none } "news" "articles" "nope"
     2024 2 14 exCat exCT (by decide) (by decide) (by decide),
   object_detail_placement_resolution.2.2.2 exEnv
     { is_staff := false, getP := none } "news" "articles" "nope"
     exCat exCT (by decide) (by decide) (by decide)⟩

/-- Claim C3: after a successful placement lookup, an inactive placement is
rejected with NotFound for a non-staff caller but returned (in the standard
context, proceeding to render) for a staff caller; for an active placement the
staff flag has no effect on the outcome. -/
theorem object_detail_active_gate :
    ∀ (env : Env) (request : Request) (category content_type slug : String)
      (year month day : Option Nat) (p : Placement) (cat : Category)
      (ct : ContentType),
      ObjectDetail.lookupPlacement env category content_type slug
          year month day = .ok (p, cat, ct) →
      ((Placement.is_active env.now p = false →
        (request.is_staff = false →
          ObjectDetail.get_context env request category content_type slug
              year month day = .error .http404) ∧
        (request.is_staff = true →
          ObjectDetail.get_context env request category content_type slug
              year month day =
            .ok { placement := p, object := p.publishable.target,
                  category := cat, content_type_name := content_type,
                  content_type := ct })) ∧
      (Placement.is_active env.now p = true →
        ∀ (s1 s2 : Bool) (gp : Option String),
          ObjectDetail.get_context env { is_staff := s1, getP := gp }
              category content_type slug year month day =
          ObjectDetail.get_context env { is_staff := s2, getP := gp }
              category content_type slug year month day)) := by
  intro env request category content_type slug year month day p cat ct hlk
  refine ⟨fun hia => ⟨fun hs => ?_, fun hs => ?_⟩, fun hia s1 s2 gp => ?_⟩
  · simp [ObjectDetail.get_context, hlk, hia, hs]
  · simp [ObjectDetail.get_context, hlk, hia, hs]
  · simp [ObjectDetail.get_context, hlk, hia]

/-- Witness for claim C3: in the concrete environment the future placement is
served to a staff caller and hidden (NotFound) from a non-staff caller, and
for the active dated placement the staff flag does not change the outcome. -/
theorem object_detail_active_gate_witness :
    ObjectDetail.get_context exEnv { is_staff := false, getP := none }
        "news" "articles" "soon" (some 2025) (some 3) (some 1) =
      .error .http404 ∧
    ObjectDetail.get_context exEnv { is_staff := true, getP := none }
        "news" "articles" "soon" (some 2025) (some 3) (some 1) =
      .ok { placement := exFuturePlacement,
            object := exFuturePlacement.publishable.target,
            category := exCat, content_type_name := "articles",
            content_type := exCT } ∧
    ObjectDetail.get_context exEnv { is_staff := true, getP := none }
        "news" "articles" "my-story" (some 2024) (some 2) (some 14) =
    ObjectDetail.get_context exEnv { is_staff := false, getP := none }
        "news" "articles" "my-story" (some 2024) (some 2) (some 14) :=
  ⟨((object_detail_active_gate exEnv { is_staff := false, getP := none }
      "news" "articles" "soon" (some 2025) (some 3) (some 1)
      exFuturePlacement exCat exCT (by decide)).1 (by decide)).1 rfl,
   ((object_detail_active_gate exEnv { is_staff := true, getP := none }
      "news" "articles" "soon" (some 2025) (some 3) (some 1)
      exFuturePlacement exCat exCT (by decide)).1 (by decide)).2 rfl,
   (object_detail_active_gate exEnv { is_staff := true, getP := none }
      "news" "articles" "my-story" (some 2024) (some 2) (some 14)
      { exDatedPlacement with category := exCat } exCat exCT
      (by decide)).2 (by decide) true false none⟩

/-- Claim C4: on a successful object-detail resolution the category on the
returned placement and the content type on its publishable are the very
instances produced by the independent category / content-type resolutions,
and the context's category and content_type entries are those same
instances. -/
theorem object_detail_identity_substitution :
    ∀ (env : Env) (request : Request) (category content_type slug : String)
      (year month day : Option Nat) (ctx : DetailContext) (cat : Category)
      (ct : ContentType),
      findCategory env.categories category env.site_id = .ok cat →
      (get_content_type env.slugify env.registeredModels env.ctCache
          content_type).1 = .ok ct →
      ObjectDetail.get_context env request category content_type slug
          year month day = .ok ctx →
      ctx.category = cat ∧ ctx.content_type = ct ∧
      ctx.placement.category = cat ∧
      ctx.placement.publishable.content_type = ct := by
  intro env request category content_type slug year month day ctx cat ct
    hcat hct h
  obtain ⟨p, cat0, ct0, hlk, ha, hctx⟩ :=
    get_context_ok_elim env request category content_type slug
      year month day ctx h
  obtain ⟨catR, ctR, pR, hctR, hcatR, hfp, htrip⟩ :=
    lookupPlacement_ok_elim env category content_type slug
      year month day _ hlk
  obtain ⟨hp, hc0, hct0⟩ :
      p = substitutePlacement catR ctR pR ∧ cat0 = catR ∧ ct0 = ctR := by
    simpa [Prod.mk.injEq] using htrip
  subst hp hc0 hct0
  have hcc : cat0 = cat := by
    rw [hcatR] at hcat; exact Except.ok.inj hcat
  have hcct : ct0 = ct := by
    rw [hctR] at hct; exact Except.ok.inj hct
  subst hcc hcct
  rw [hctx]
  exact ⟨rfl, rfl, rfl, rfl⟩

/-- Witness for claim C4: in the concrete environment the placement stores a
stale copy of the category (different display path, same primary key), and
the resolved context carries the freshly resolved instances everywhere. -/
theorem object_detail_identity_substitution_witness :
    exDatedCtx.category = exCat ∧ exDatedCtx.content_type = exCT ∧
    exDatedCtx.placement.category = exCat ∧
    exDatedCtx.placement.publishable.content_type = exCT :=
  object_detail_identity_substitution exEnv { is_staff := false, getP := none }
    "news" "articles" "my-story" (some 2024) (some 2) (some 14) exDatedCtx
    exCat exCT (by decide) (by decide) (by decide)

/-- Claim C9: once the object-detail context is built, the render path is
decided in order — a truthy url remainder is split on slashes and delegated
entirely to the sub-path dispatcher with the built context; otherwise a
registered custom-detail override receives the built context; otherwise the
standard template-selection-and-render path is taken. -/
theorem object_detail_dispatch_order :
    ∀ (env : Env) (request : Request) (category content_type slug : String)
      (year month day : Option Nat) (ctx : DetailContext),
      ObjectDetail.get_context env request category content_type slug
          year month day = .ok ctx →
      (∀ rem : String, pyTruthyStr (some rem) = true →
        ObjectDetail.call env request category content_type slug
            year month day (some rem) =
          .customView (pySplitSlash rem) ctx) ∧
      (∀ rem : Option String, pyTruthyStr rem = false →
        ObjectDetail.call env request category content_type slug
            year month day rem =
          (if env.hasCustomDetail ctx.object then .customDetail ctx
           else .rendered ctx (ObjectDetail.view_templates ctx))) := by
  intro env request category content_type slug year month day ctx h
  constructor
  · intro rem hr
    simp [ObjectDetail.call, h, hr]
  · intro rem hr
    simp [ObjectDetail.call, h, hr]

/-- Witness for claim C9: in the concrete environment a remainder is split
and delegated with the built context, and with no remainder and no custom
detail registered the standard render path with its template candidates is
taken. -/
theorem object_detail_dispatch_order_witness :
    ObjectDetail.call exEnv { is_staff := false, getP := none }
        "news" "articles" "my-story" (some 2024) (some 2) (some 14)
        (some "rate/5") =
      .customView (pySplitSlash "rate/5") exDatedCtx ∧
    pySplitSlash "rate/5" = ["rate", "5"] ∧
    ObjectDetail.call exEnv { is_staff := false, getP := none }
        "news" "articles" "my-story" (some 2024) (some 2) (some 14) none =
      .rendered exDatedCtx (ObjectDetail.view_templates exDatedCtx) :=
  ⟨(object_detail_dispatch_order exEnv { is_staff := false, getP := none }
      "news" "articles" "my-story" (some 2024) (some 2) (some 14) exDatedCtx
      (by decide)).1 "rate/5" (by decide),
   by decide,
   (object_detail_dispatch_order exEnv { is_staff := false, getP := none }
      "news" "articles" "my-story" (some 2024) (some 2) (some 14) exDatedCtx
      (by decide)).2 none rfl⟩

/-- A paginator over a positive page size always has at least one page. -/
theorem num_pages_pos (count per : Nat) (hp : 0 < per) :
    1 ≤ Paginator.num_pages count per := by
  unfold Paginator.num_pages
  split
  · exact le_refl 1
  · rename_i hc
    have hc2 : 1 ≤ count := by
      cases count with
      | zero => simp at hc
      | succ n => omega
    rw [Nat.one_le_div_iff hp]
    omega

/-- A successful date filter carries exactly the supplied components and
nothing else. -/
theorem buildDateKwa_ok_fields (year month day : Option Nat)
    (kwa2 : ListingFilter)
    (h : ListContentType.buildDateKwa year month day = .ok kwa2) :
    kwa2.publish_from_year = year ∧ kwa2.publish_from_month = month ∧
    kwa2.publish_from_day = day ∧ kwa2.category = none ∧
    kwa2.children = false ∧ kwa2.content_types = none := by
  cases year with
  | none => simp [ListContentType.buildDateKwa] at h
  | some yr =>
    cases month with
    | some m =>
      cases hv1 : validDate yr m 1 with
      | false => simp [ListContentType.buildDateKwa, hv1] at h
      | true =>
        cases day with
        | some d =>
          cases hv2 : validDate yr m d with
          | false => simp [ListContentType.buildDateKwa, hv1, hv2] at h
          | true =>
            simp [ListContentType.buildDateKwa, hv1, hv2] at h
            subst h
            exact ⟨rfl, rfl, rfl, rfl, rfl, rfl⟩
        | none =>
          simp [ListContentType.buildDateKwa, hv1] at h
          subst h
          exact ⟨rfl, rfl, rfl, rfl, rfl, rfl⟩
    | none =>
      cases day with
      | some d => simp [ListContentType.buildDateKwa] at h
      | none =>
        simp [ListContentType.buildDateKwa] at h
        subst h
        exact ⟨rfl, rfl, rfl, rfl, rfl, rfl⟩

/-- A successful category/content-type filter application resolves the
category, keeps the date components, always adds the exact-category filter,
and adds the subtree filter exactly for a non-root path. -/
theorem applyCategoryAndType_ok_fields (env : Env) (category : String)
    (content_type : Option String) (kwa2 kwa : ListingFilter)
    (cat : Category) (ct : Option ContentType)
    (hch : kwa2.children = false)
    (h : ListContentType.applyCategoryAndType env category content_type kwa2 =
      .ok (kwa, cat, ct)) :
    findCategory env.categories category env.site_id = .ok cat ∧
    kwa.publish_from_year = kwa2.publish_from_year ∧
    kwa.publish_from_month = kwa2.publish_from_month ∧
    kwa.publish_from_day = kwa2.publish_from_day ∧
    kwa.category = some cat ∧
    (kwa.children = true ↔ ¬ category = "") := by
  cases hcat : findCategory env.categories category env.site_id with
  | error e => simp [ListContentType.applyCategoryAndType, hcat] at h
  | ok cat2 =>
    by_cases hc : category = ""
    · subst hc
      cases content_type with
      | none =>
        simp [ListContentType.applyCategoryAndType, hcat] at h
        obtain ⟨rfl, rfl, rfl⟩ := h
        exact ⟨rfl, rfl, rfl, rfl, rfl, by simp [hch]⟩
      | some ctName =>
        cases hct : (get_content_type env.slugify env.registeredModels
            env.ctCache ctName).1 with
        | error e =>
          simp [ListContentType.applyCategoryAndType, hcat, hct] at h
        | ok c =>
          simp [ListContentType.applyCategoryAndType, hcat, hct] at h
          obtain ⟨rfl, rfl, rfl⟩ := h
          exact ⟨rfl, rfl, rfl, rfl, rfl, by simp [hch]⟩
    · cases content_type with
      | none =>
        simp [ListContentType.applyCategoryAndType, hcat, hc] at h
        obtain ⟨rfl, rfl, rfl⟩ := h
        exact ⟨rfl, rfl, rfl, rfl, rfl, by simp [hc]⟩
      | some ctName =>
        cases hct : (get_content_type env.slugify env.registeredModels
            env.ctCache ctName).1 with
        | error e =>
          simp [ListContentType.applyCategoryAndType, hcat, hc, hct] at h
        | ok c =>
          simp [ListContentType.applyCategoryAndType, hcat, hc, hct] at h
          obtain ⟨rfl, rfl, rfl⟩ := h
          exact ⟨rfl, rfl, rfl, rfl, rfl, by simp [hc]⟩

/-- Claim C7 counterexample: supplying a day without a month (year 2024,
day 15) makes the listing fail with an uncaught TypeError, not with the
invalid-date NotFound the claim prescribes for every date-component
combination that does not form a valid calendar date. -/
theorem listing_day_without_month_counterexample :
    ListContentType.get_context exEnv { is_staff := false, getP := none }
        "" (some 2024) none (some 15) none 20 = .error .typeError ∧
    ListContentType.get_context exEnv { is_staff := false, getP := none }
        "" (some 2024) none (some 15) none 20 ≠ .error .http404 := by
  constructor
  · decide
  · decide

/-- Claim C7 (amended): year is mandatory (a missing year is an uncaught
TypeError, not a silent match-all); a supplied month that is not a valid
calendar month, or a supplied day that with the supplied month and year does
not form a valid calendar date, fails with the invalid-date error surfaced
as NotFound; a day supplied without a month raises an uncaught TypeError
(server error) rather than NotFound; and a valid month/day combination is
added to the filter exactly as supplied. -/
theorem listing_date_validation :
    (∀ (env : Env) (category : String) (month day : Option Nat)
        (content_type : Option String),
      ListContentType.buildKwa env category none month day content_type =
        .error .typeError) ∧
    (∀ (env : Env) (category : String) (y m : Nat) (day : Option Nat)
        (content_type : Option String),
      validDate y m 1 = false →
      ListContentType.buildKwa env category (some y) (some m) day
        content_type = .error .http404) ∧
    (∀ (env : Env) (category : String) (y m d : Nat)
        (content_type : Option String),
      validDate y m 1 = true → validDate y m d = false →
      ListContentType.buildKwa env category (some y) (some m) (some d)
        content_type = .error .http404) ∧
    (∀ (env : Env) (category : String) (y d : Nat)
        (content_type : Option String),
      ListContentType.buildKwa env category (some y) none (some d)
        content_type = .error .typeError) ∧
    (∀ (env : Env) (category : String) (y m d : Nat)
        (content_type : Option String) (kwa : ListingFilter) (cat : Category)
        (ct : Option ContentType),
      ListContentType.buildKwa env category (some y) (some m) (some d)
          content_type = .ok (kwa, cat, ct) →
      kwa.publish_from_year = some y ∧ kwa.publish_from_month = some m ∧
        kwa.publish_from_day = some d) := by
  refine ⟨?_, ?_, ?_, ?_, ?_⟩
  · intro env category month day content_type
    rfl
  · intro env category y m day content_type hv
    have hd : ListContentType.buildDateKwa (some y) (some m) day =
        .error .http404 := by
      simp [ListContentType.buildDateKwa, hv]
    simp [ListContentType.buildKwa, hd]
  · intro env category y m d content_type hv1 hv2
    have hd : ListContentType.buildDateKwa (some y) (some m) (some d) =
        .error .http404 := by
      simp [ListContentType.buildDateKwa, hv1, hv2]
    simp [ListContentType.buildKwa, hd]
  · intro env category y d content_type
    rfl
  · intro env category y m d content_type kwa cat ct h
    cases hd : ListContentType.buildDateKwa (some y) (some m) (some d) with
    | error e => simp [ListContentType.buildKwa, hd] at h
    | ok kwa2 =>
      have hdf := buildDateKwa_ok_fields (some y) (some m) (some d) kwa2 hd
      have haf := applyCategoryAndType_ok_fields env category content_type
        kwa2 kwa cat ct hdf.2.2.2.2.1
        (by simpa [ListContentType.buildKwa, hd] using h)
      exact ⟨haf.2.1.trans hdf.1, haf.2.2.1.trans hdf.2.1,
        haf.2.2.2.1.trans hdf.2.2.1⟩

/-- Witness for claim C7 (amended): a missing year and a day without a month
are TypeErrors; month 13 and the 30th of February 2024 are NotFound; a valid
combination (29 February 2024) lands in the filter as supplied. -/
theorem listing_date_validation_witness :
    ListContentType.buildKwa exEnv "" none none none none =
      .error .typeError ∧
    ListContentType.buildKwa exEnv "" (some 2024) (some 13) none none =
      .error .http404 ∧
    ListContentType.buildKwa exEnv "" (some 2024) (some 2) (some 30) none =
      .error .http404 ∧
    ListContentType.buildKwa exEnv "" (some 2024) none (some 15) none =
      .error .typeError ∧
    (exKwaFeb.publish_from_year = some 2024 ∧
      exKwaFeb.publish_from_month = some 2 ∧
      exKwaFeb.publish_from_day = some 29) :=
  ⟨listing_date_validation.1 exEnv "" none none none,
   listing_date_validation.2.1 exEnv "" 2024 13 none none (by decide),
   listing_date_validation.2.2.1 exEnv "" 2024 2 30 none (by decide)
     (by decide),
   listing_date_validation.2.2.2.1 exEnv "" 2024 15 none,
   listing_date_validation.2.2.2.2 exEnv "" 2024 2 29 none exKwaFeb
     exRootCat none (by decide)⟩

/-- Claim C8: on every successful listing filter construction, the
exact-category filter is set to the freshly resolved category, and the
category-subtree (children) filter is additionally set exactly when the
supplied category path is non-root; for the root (empty) path only the exact
filter is present. -/
theorem listing_category_filter :
    ∀ (env : Env) (category : String) (year month day : Option Nat)
      (content_type : Option String) (kwa : ListingFilter) (cat : Category)
      (ct : Option ContentType),
      ListContentType.buildKwa env category year month day content_type =
        .ok (kwa, cat, ct) →
      findCategory env.categories category env.site_id = .ok cat ∧
      kwa.category = some cat ∧
      (kwa.children = true ↔ ¬ category = "") := by
  intro env category year month day content_type kwa cat ct h
  cases hd : ListContentType.buildDateKwa year month day with
  | error e => simp [ListContentType.buildKwa, hd] at h
  | ok kwa2 =>
    have hdf := buildDateKwa_ok_fields year month day kwa2 hd
    have haf := applyCategoryAndType_ok_fields env category content_type
      kwa2 kwa cat ct hdf.2.2.2.2.1
      (by simpa [ListContentType.buildKwa, hd] using h)
    exact ⟨haf.1, haf.2.2.2.2.1, haf.2.2.2.2.2⟩

/-- Witness for claim C8: for the non-root path `news` the subtree filter is
set, for the root path it is not, and both carry the exact resolved
category. -/
theorem listing_category_filter_witness :
    (findCategory exEnv.categories "news" exEnv.site_id = .ok exCat ∧
      exKwaNews.category = some exCat ∧
      (exKwaNews.children = true ↔ ¬ "news" = "")) ∧
    (findCategory exEnv.categories "" exEnv.site_id = .ok exRootCat ∧
      exKwa.category = some exRootCat ∧
      (exKwa.children = true ↔ ¬ "" = "")) :=
  ⟨listing_category_filter exEnv "news" (some 2024) none none none
     exKwaNews exCat none (by decide),
   listing_category_filter exEnv "" (some 2024) none none none
     exKwa exRootCat none (by decide)⟩

/-- Claim C6: listing pagination is 1-indexed with a default page size of 20
(overridable); a page number outside `[1, num_pages]` fails with NotFound
rather than returning an empty page; page 1 always exists for a positive page
size and holds the first page-size items; and for 45 matching items at the
default size, page 3 holds exactly the remaining five items while page 4 is
NotFound. -/
theorem listing_pagination :
    ListContentType.paginate_by_default = 20 ∧
    (∀ (env : Env) (request : Request) (category : String)
        (year month day : Option Nat) (content_type : Option String)
        (paginate_by : Nat) (kwa : ListingFilter) (cat : Category)
        (ct : Option ContentType),
      ListContentType.buildKwa env category year month day content_type =
        .ok (kwa, cat, ct) →
      (parsePageNo request.getP >
          Paginator.num_pages (env.runQuery kwa).length paginate_by ∨
        parsePageNo request.getP < 1) →
      ListContentType.get_context env request category year month day
        content_type paginate_by = .error .http404) ∧
    (∀ (env : Env) (request : Request) (category : String)
        (year month day : Option Nat) (content_type : Option String)
        (paginate_by : Nat) (kwa : ListingFilter) (cat : Category)
        (ct : Option ContentType),
      ListContentType.buildKwa env category year month day content_type =
        .ok (kwa, cat, ct) →
      request.getP = none →
      0 < paginate_by →
      ∃ lctx,
        ListContentType.get_context env request category year month day
            content_type paginate_by = .ok lctx ∧
        lctx.page_number = 1 ∧
        lctx.listings = (env.runQuery kwa).take paginate_by) ∧
    (∀ (env : Env) (request : Request) (category : String)
        (year month day : Option Nat) (content_type : Option String)
        (kwa : ListingFilter) (cat : Category) (ct : Option ContentType),
      ListContentType.buildKwa env category year month day content_type =
        .ok (kwa, cat, ct) →
      (env.runQuery kwa).length = 45 →
      request.getP = some "3" →
      ∃ lctx,
        ListContentType.get_context env request category year month day
            content_type ListContentType.paginate_by_default = .ok lctx ∧
        lctx.listings = (env.runQuery kwa).drop 40 ∧
        ((env.runQuery kwa).drop 40).length = 5) ∧
    (∀ (env : Env) (request : Request) (category : String)
        (year month day : Option Nat) (content_type : Option String)
        (kwa : ListingFilter) (cat : Category) (ct : Option ContentType),
      ListContentType.buildKwa env category year month day content_type =
        .ok (kwa, cat, ct) →
      (env.runQuery kwa).length = 45 →
      request.getP = some "4" →
      ListContentType.get_context env request category year month day
        content_type ListContentType.paginate_by_default =
          .error .http404) := by
  refine ⟨rfl, ?_, ?_, ?_, ?_⟩
  · intro env request category year month day content_type paginate_by
      kwa cat ct h hrange
    simp only [ListContentType.get_context, h]
    rw [if_pos hrange]
  · intro env request category year month day content_type paginate_by
      kwa cat ct h hp hpos
    have h1 : parsePageNo request.getP = 1 := by rw [hp]; rfl
    have hnp := num_pages_pos (env.runQuery kwa).length paginate_by hpos
    have hcond : ¬ (parsePageNo request.getP >
        Paginator.num_pages (env.runQuery kwa).length paginate_by ∨
        parsePageNo request.getP < 1) := by
      rw [h1]; omega
    refine ⟨{ listings := Paginator.page_items (env.runQuery kwa) paginate_by
                (parsePageNo request.getP),
              category := cat, content_type := ct,
              content_type_name := content_type,
              is_paginated := decide (1 < Paginator.num_pages
                (env.runQuery kwa).length paginate_by),
              results_per_page := paginate_by,
              page_number := parsePageNo request.getP }, ?_, ?_, ?_⟩
    · simp only [ListContentType.get_context, h]
      rw [if_neg hcond]
    · exact h1
    · show Paginator.page_items (env.runQuery kwa) paginate_by
          (parsePageNo request.getP) = (env.runQuery kwa).take paginate_by
      rw [h1]
      simp [Paginator.page_items]
  · intro env request category year month day content_type
      kwa cat ct h hlen hp
    have hnp : Paginator.num_pages (env.runQuery kwa).length
        ListContentType.paginate_by_default = 3 := by
      rw [hlen]; decide
    have hcond : ¬ (parsePageNo request.getP >
        Paginator.num_pages (env.runQuery kwa).length
          ListContentType.paginate_by_default ∨
        parsePageNo request.getP < 1) := by
      rw [hp, (by decide : parsePageNo (some "3") = 3), hnp]
      omega
    have hlen2 : ((env.runQuery kwa).drop 40).length ≤ 20 := by
      simp [List.length_drop, hlen]
    refine ⟨{ listings := Paginator.page_items (env.runQuery kwa)
                ListContentType.paginate_by_default (parsePageNo request.getP),
              category := cat, content_type := ct,
              content_type_name := content_type,
              is_paginated := decide (1 < Paginator.num_pages
                (env.runQuery kwa).length ListContentType.paginate_by_default),
              results_per_page := ListContentType.paginate_by_default,
              page_number := parsePageNo request.getP }, ?_, ?_, ?_⟩
    · simp only [ListContentType.get_context, h]
      rw [if_neg hcond]
    · show Paginator.page_items (env.runQuery kwa)
          ListContentType.paginate_by_default (parsePageNo request.getP) =
        (env.runQuery kwa).drop 40
      rw [hp, (by decide : parsePageNo (some "3") = 3)]
      have hred : Paginator.page_items (env.runQuery kwa)
          ListContentType.paginate_by_default 3 =
          ((env.runQuery kwa).drop 40).take 20 := rfl
      rw [hred]
      exact List.take_of_length_le hlen2
    · simp [List.length_drop, hlen]
  · intro env request category year month day content_type
      kwa cat ct h hlen hp
    have hnp : Paginator.num_pages (env.runQuery kwa).length
        ListContentType.paginate_by_default = 3 := by
      rw [hlen]; decide
    simp only [ListContentType.get_context, h]
    rw [hp, (by decide : parsePageNo (some "4") = 4), hnp]
    rw [if_pos (Or.inl (by decide : 4 > 3))]

/-- Witness for claim C6: in the concrete environment (45 matching rows) page
99 and page 4 are NotFound, page 1 holds the first twenty rows, page 3 holds
exactly the remaining five. -/
theorem listing_pagination_witness :
    ListContentType.paginate_by_default = 20 ∧
    ListContentType.get_context exEnv { is_staff := false, getP := some "99" }
        "" (some 2024) none none none 20 = .error .http404 ∧
    (∃ lctx,
      ListContentType.get_context exEnv { is_staff := false, getP := none }
          "" (some 2024) none none none 20 = .ok lctx ∧
      lctx.page_number = 1 ∧
      lctx.listings = (exEnv.runQuery exKwa).take 20) ∧
    (∃ lctx,
      ListContentType.get_context exEnv { is_staff := false, getP := some "3" }
          "" (some 2024) none none none ListContentType.paginate_by_default =
        .ok lctx ∧
      lctx.listings = (exEnv.runQuery exKwa).drop 40 ∧
      ((exEnv.runQuery exKwa).drop 40).length = 5) ∧
    ListContentType.get_context exEnv { is_staff := false, getP := some "4" }
        "" (some 2024) none none none ListContentType.paginate_by_default =
      .error .http404 :=
  ⟨listing_pagination.1,
   listing_pagination.2.1 exEnv { is_staff := false, getP := some "99" }
     "" (some 2024) none none none 20 exKwa exRootCat none (by decide)
     (by decide),
   listing_pagination.2.2.1 exEnv { is_staff := false, getP := none }
     "" (some 2024) none none none 20 exKwa exRootCat none (by decide) rfl
     (by decide),
   listing_pagination.2.2.2.1 exEnv { is_staff := false, getP := some "3" }
     "" (some 2024) none none none exKwa exRootCat none (by decide)
     (by decide) rfl,
   listing_pagination.2.2.2.2 exEnv { is_staff := false, getP := some "4" }
     "" (some 2024) none none none exKwa exRootCat none (by decide)
     (by decide) rfl⟩

/-- Claim C10: a missing or non-digit `p` query parameter (including `-1` and
non-numeric text) silently yields page number 1 with no error from the
parsing step; a digit string — including `0` — is taken at face value, and is
then subject to the range check (page `0` is NotFound). -/
theorem listing_page_param_parsing :
    parsePageNo none = 1 ∧
    (∀ s : String, pyIsDigit s = false → parsePageNo (some s) = 1) ∧
    (∀ s : String, pyIsDigit s = true → parsePageNo (some s) = pyStrToNat s) ∧
    parsePageNo (some "-1") = 1 ∧
    parsePageNo (some "abc") = 1 ∧
    parsePageNo (some "0") = 0 ∧
    (∀ (env : Env) (request : Request) (category : String)
        (year month day : Option Nat) (content_type : Option String)
        (paginate_by : Nat) (kwa : ListingFilter) (cat : Category)
        (ct : Option ContentType),
      ListContentType.buildKwa env category year month day content_type =
        .ok (kwa, cat, ct) →
      request.getP = some "0" →
      ListContentType.get_context env request category year month day
        content_type paginate_by = .error .http404) := by
  refine ⟨rfl, ?_, ?_, by decide, by decide, by decide, ?_⟩
  · intro s hs
    simp [parsePageNo, hs]
  · intro s hs
    simp [parsePageNo, hs]
  · intro env request category year month day content_type paginate_by
      kwa cat ct h hp
    simp only [ListContentType.get_context, h]
    rw [hp, (by decide : parsePageNo (some "0") = 0)]
    rw [if_pos (Or.inr (by decide : (0 : Nat) < 1))]

/-- Witness for claim C10: a non-digit string parses to page 1, a digit
string is taken at face value, and page `0` is rejected by the range check in
the concrete environment. -/
theorem listing_page_param_parsing_witness :
    parsePageNo (some "x7") = 1 ∧
    parsePageNo (some "12") = pyStrToNat "12" ∧
    pyStrToNat "12" = 12 ∧
    ListContentType.get_context exEnv { is_staff := false, getP := some "0" }
        "" (some 2024) none none none 20 = .error .http404 :=
  ⟨listing_page_param_parsing.2.1 "x7" (by decide),
   listing_page_param_parsing.2.2.1 "12" (by decide),
   by decide,
   listing_page_param_parsing.2.2.2.2.2.2 exEnv
     { is_staff := false, getP := some "0" } "" (some 2024) none none none
     20 exKwa exRootCat none (by decide) rfl⟩

end Ella
